import Mathlib

/-!
Shallow embedding of the solana-escrow program
(src/Cluster1/solana-escrow/program/src/instruction.rs and processor.rs).

Machine integers (u64) are modelled as Nat with explicit reduction mod
2 ^ 64 where the source's wrapping arithmetic matters.  Byte buffers are
lists of Nat (each entry a byte value).  Fallible operations return
Except.  The host environment (clock, rent policy, token-ledger call
results, program-derived address) is a record of parameters; each
handler returns the ordered list of token-ledger calls it issued
together with the record write it performed and its final result.
-/

/-- The u64 modulus. -/
def U64 : Nat := 2 ^ 64

/-- Error kinds surfaced by the program: the variants of
solana_program ProgramError and of the crate's EscrowError that the two
source files mention, plus the two environment-level failures
(a missing account in the caller-supplied list, and a failed
token-ledger invocation, whose concrete callee error the embedding does
not distinguish). -/
inductive ProgramError where
  | InvalidInstruction
  | MissingRequiredSignature
  | IncorrectProgramId
  | NotRentExempt
  | AccountAlreadyInitialized
  | UninitializedAccount
  | ExpectedAmountMismatch
  | InvalidAccountData
  | AmountOverflow
  | TimeConstraintWasNotSatisfied
  | IllegalOwner
  | NotEnoughAccountKeys
  | LedgerCallFailed
deriving DecidableEq, Repr

/-- The four instructions of instruction.rs (enum EscrowInstruction).
The source enum writes an untyped parameter in the ResetTimeLock
variant; the codec neither reads nor writes any payload for it, so the
variant carries no data here. -/
inductive EscrowInstruction where
  | InitEscrow (amount : Nat)
  | Exchange (amount : Nat)
  | ResetTimeLock
  | Cancel
deriving DecidableEq, Repr

/-- Little-endian byte list to natural number (u64::from_le_bytes on an
8-byte slice). -/
def u64_from_le_bytes (bs : List Nat) : Nat :=
  bs.foldr (fun b acc => b + 256 * acc) 0

/-- Natural number (below 2 ^ 64) to its 8 little-endian bytes
(u64::to_le_bytes). -/
def u64_to_le_bytes (n : Nat) : List Nat :=
  [n % 256, n / 256 % 256, n / 256 ^ 2 % 256, n / 256 ^ 3 % 256,
   n / 256 ^ 4 % 256, n / 256 ^ 5 % 256, n / 256 ^ 6 % 256, n / 256 ^ 7 % 256]

namespace EscrowInstruction

/-- instruction.rs lines 73-80: read the first 8 bytes of the input as a
little-endian u64; error InvalidInstruction when fewer than 8 bytes are
present.  Surplus bytes beyond the first 8 are ignored. -/
def unpack_amount (input : List Nat) : Except ProgramError Nat :=
  if 8 ≤ input.length then
    .ok (u64_from_le_bytes (input.take 8))
  else
    .error .InvalidInstruction

/-- instruction.rs lines 57-71: split off the tag byte and dispatch on
it; tags 0 and 1 carry an amount, 2 and 3 carry nothing, anything else
is InvalidInstruction. -/
def unpack (input : List Nat) : Except ProgramError EscrowInstruction :=
  match input with
  | [] => .error .InvalidInstruction
  | tag :: rest =>
    if tag = 0 then
      match unpack_amount rest with
      | .ok amount => .ok (.InitEscrow amount)
      | .error e => .error e
    else if tag = 1 then
      match unpack_amount rest with
      | .ok amount => .ok (.Exchange amount)
      | .error e => .error e
    else if tag = 2 then .ok .ResetTimeLock
    else if tag = 3 then .ok .Cancel
    else .error .InvalidInstruction

/-- instruction.rs lines 82-101: tag byte followed, for the two amount
variants, by the 8 little-endian amount bytes. -/
def pack : EscrowInstruction → List Nat
  | .InitEscrow amount => 0 :: u64_to_le_bytes amount
  | .Exchange amount => 1 :: u64_to_le_bytes amount
  | .ResetTimeLock => [2]
  | .Cancel => [3]

/-- An instruction whose amount field (when present) fits in a u64. -/
def amount_wf : EscrowInstruction → Prop
  | .InitEscrow amount => amount < U64
  | .Exchange amount => amount < U64
  | .ResetTimeLock => True
  | .Cancel => True

instance : DecidablePred amount_wf := fun i =>
  match i with
  | .InitEscrow amount => inferInstanceAs (Decidable (amount < U64))
  | .Exchange amount => inferInstanceAs (Decidable (amount < U64))
  | .ResetTimeLock => inferInstanceAs (Decidable True)
  | .Cancel => inferInstanceAs (Decidable True)

end EscrowInstruction

lemma u64_le_roundtrip (n : Nat) (h : n < U64) :
    u64_from_le_bytes (u64_to_le_bytes n) = n := by
  simp only [u64_to_le_bytes, u64_from_le_bytes, List.foldr]
  simp only [U64] at h
  omega

/-- An SPL token account, reduced to the one field the processor reads:
its token balance (spl_token state Account, field amount). -/
structure TokenAccount where
  amount : Nat
deriving DecidableEq, Repr

/-- Modelled from the spec: the EscrowRecord persisted in the escrow
account (crate module state, struct Escrow, which is not among the
sources; its fields are those the spec's data model lists and the
processor reads and writes). -/
structure Escrow where
  is_initialized : Bool
  initializer_pubkey : Nat
  temp_token_account_pubkey : Nat
  initializer_token_to_receive_account_pubkey : Nat
  expected_amount : Nat
  unlock_time : Nat
deriving DecidableEq, Repr

/-- One account of the caller-supplied list, with the data the
processor may interpret: as an SPL token account (tokenData, none when
TokenAccount unpacking would fail) or as escrow-record bytes
(escrowData, none when the data is not well-sized for the record
codec). -/
structure AccountInfo where
  key : Nat
  is_signer : Bool
  is_writable : Bool
  owner : Nat
  lamports : Nat
  data_len : Nat
  tokenData : Option TokenAccount
  escrowData : Option Escrow
deriving DecidableEq, Repr

/-- spl_token state Account unpacking of an account's data; fails with
InvalidAccountData when the bytes do not form a token account. -/
def TokenAccount.unpack (a : AccountInfo) : Except ProgramError TokenAccount :=
  match a.tokenData with
  | some t => .ok t
  | none => .error .InvalidAccountData

/-- Modelled from the spec: Escrow unpack_unchecked never fails on
well-sized data and does not inspect the initialized flag. -/
def Escrow.unpack_unchecked (a : AccountInfo) : Except ProgramError Escrow :=
  match a.escrowData with
  | some r => .ok r
  | none => .error .InvalidAccountData

/-- Modelled from the spec: Escrow unpack fails with
UninitializedAccount when the record's initialized flag is not set. -/
def Escrow.unpack (a : AccountInfo) : Except ProgramError Escrow :=
  match Escrow.unpack_unchecked a with
  | .error e => .error e
  | .ok r => if r.is_initialized then .ok r else .error .UninitializedAccount

/-- The host environment a handler runs in: the clock sysvar's slot,
the rent sysvar's exemption policy, the success of each token-ledger
invocation (indexed by its position in the handler's call sequence),
the program-derived address returned by find_program_address with its
nonce, and the identity of the SPL token program. -/
structure Env where
  clock_slot : Nat
  rentIsExempt : Nat → Nat → Bool
  ledgerOk : Nat → Bool
  pda : Nat
  nonce : Nat
  spl_token_id : Nat

/-- One externally-visible token-ledger invocation, as built by the
processor (spl_token instruction constructors, then invoke or
invoke_signed). -/
inductive LedgerCall where
  | setAuthority (account : Nat) (new_authority : Nat) (current_authority : Nat)
  | transfer (source : Nat) (dest : Nat) (authority : Nat) (amount : Nat)
  | closeAccount (account : Nat) (dest : Nat) (authority : Nat)
deriving DecidableEq, Repr

/-- What one handler invocation did, in raw order and without the
host's rollback: the token-ledger calls it issued (a call that failed
is still the last element, since it was issued), the escrow record it
packed into the escrow account (if it reached the pack), whether it
cleared the escrow account's data, whether it swept the escrow
account's lamports into the initializer's main account, and its result
(none for Ok, some e for the error it returned). -/
structure Outcome where
  calls : List LedgerCall
  recordWrite : Option Escrow
  recordCleared : Bool
  lamportsSwept : Bool
  err : Option ProgramError
deriving DecidableEq, Repr

/-- An outcome reached before any token-ledger call or record write. -/
def noEffect (e : Option ProgramError) : Outcome :=
  ⟨[], none, false, false, e⟩

/-- processor.rs lines 50-112 (process_init_escrow).  Accounts are
consumed positionally in source order; each failed check returns the
source's error.  Line 55 computes a lock expiry into a local variable;
lines 82-86 then populate the record WITHOUT assigning that value to
the unlock_time field, so the packed record keeps the unlock_time that
was already in the account's data.  The only token-ledger call is the
set_authority invocation of lines 92-109, issued after the record has
been packed. -/
def process_init_escrow (env : Env) (accounts : List AccountInfo)
    (amount : Nat) (program_id : Nat) : Outcome :=
  let _unlock_time := (env.clock_slot + 100) % U64
  match accounts[0]? with
  | none => noEffect (some .NotEnoughAccountKeys)
  | some initializer =>
  if !initializer.is_signer then noEffect (some .MissingRequiredSignature) else
  match accounts[1]? with
  | none => noEffect (some .NotEnoughAccountKeys)
  | some temp_token_account =>
  match accounts[2]? with
  | none => noEffect (some .NotEnoughAccountKeys)
  | some token_to_receive_account =>
  if token_to_receive_account.owner ≠ env.spl_token_id then
    noEffect (some .IncorrectProgramId) else
  match accounts[3]? with
  | none => noEffect (some .NotEnoughAccountKeys)
  | some escrow_account =>
  match accounts[4]? with
  | none => noEffect (some .NotEnoughAccountKeys)
  | some _rent_sysvar_account =>
  if !env.rentIsExempt escrow_account.lamports escrow_account.data_len then
    noEffect (some .NotRentExempt) else
  match Escrow.unpack_unchecked escrow_account with
  | .error e => noEffect (some e)
  | .ok escrow_info0 =>
  if escrow_info0.is_initialized then
    noEffect (some .AccountAlreadyInitialized) else
  let escrow_info : Escrow :=
    { escrow_info0 with
      is_initialized := true
      initializer_pubkey := initializer.key
      temp_token_account_pubkey := temp_token_account.key
      initializer_token_to_receive_account_pubkey := token_to_receive_account.key
      expected_amount := amount }
  match accounts[5]? with
  | none => ⟨[], some escrow_info, false, false, some .NotEnoughAccountKeys⟩
  | some _token_program =>
  let owner_change_ix :=
    LedgerCall.setAuthority temp_token_account.key env.pda initializer.key
  if !env.ledgerOk 0 then
    ⟨[owner_change_ix], some escrow_info, false, false, some .LedgerCallFailed⟩
  else
    ⟨[owner_change_ix], some escrow_info, false, false, none⟩

/-- processor.rs lines 114-230 (process_exchange).  Accounts are
consumed positionally in source order.  Note the order around the first
token-ledger call: the token program account (index 7) is fetched at
line 159 and the transfer to the initializer is invoked at lines
161-178 BEFORE the pda account (index 8) is fetched at line 180, so a
caller-supplied list of exactly 8 accounts fails with a missing-account
error only after that first transfer has been issued. -/
def process_exchange (env : Env) (accounts : List AccountInfo)
    (amount_expected_by_taker : Nat) (program_id : Nat) : Outcome :=
  match accounts[0]? with
  | none => noEffect (some .NotEnoughAccountKeys)
  | some taker =>
  if !taker.is_signer then noEffect (some .MissingRequiredSignature) else
  match accounts[1]? with
  | none => noEffect (some .NotEnoughAccountKeys)
  | some takers_sending_token_account =>
  match accounts[2]? with
  | none => noEffect (some .NotEnoughAccountKeys)
  | some takers_token_to_receive_account =>
  match accounts[3]? with
  | none => noEffect (some .NotEnoughAccountKeys)
  | some pdas_temp_token_account =>
  match TokenAccount.unpack pdas_temp_token_account with
  | .error e => noEffect (some e)
  | .ok pdas_temp_token_account_info =>
  if amount_expected_by_taker ≠ pdas_temp_token_account_info.amount then
    noEffect (some .ExpectedAmountMismatch) else
  match accounts[4]? with
  | none => noEffect (some .NotEnoughAccountKeys)
  | some initializers_main_account =>
  match accounts[5]? with
  | none => noEffect (some .NotEnoughAccountKeys)
  | some initializers_token_to_receive_account =>
  match accounts[6]? with
  | none => noEffect (some .NotEnoughAccountKeys)
  | some escrow_account =>
  match Escrow.unpack escrow_account with
  | .error e => noEffect (some e)
  | .ok escrow_info =>
  if escrow_info.temp_token_account_pubkey ≠ pdas_temp_token_account.key then
    noEffect (some .InvalidAccountData) else
  if escrow_info.initializer_pubkey ≠ initializers_main_account.key then
    noEffect (some .InvalidAccountData) else
  if escrow_info.initializer_token_to_receive_account_pubkey ≠
      initializers_token_to_receive_account.key then
    noEffect (some .InvalidAccountData) else
  match accounts[7]? with
  | none => noEffect (some .NotEnoughAccountKeys)
  | some _token_program =>
  let transfer_to_initializer_ix :=
    LedgerCall.transfer takers_sending_token_account.key
      initializers_token_to_receive_account.key taker.key
      escrow_info.expected_amount
  if !env.ledgerOk 0 then
    ⟨[transfer_to_initializer_ix], none, false, false, some .LedgerCallFailed⟩ else
  match accounts[8]? with
  | none =>
    ⟨[transfer_to_initializer_ix], none, false, false, some .NotEnoughAccountKeys⟩
  | some _pda_account =>
  let transfer_to_taker_ix :=
    LedgerCall.transfer pdas_temp_token_account.key
      takers_token_to_receive_account.key env.pda
      pdas_temp_token_account_info.amount
  if !env.ledgerOk 1 then
    ⟨[transfer_to_initializer_ix, transfer_to_taker_ix], none, false, false,
      some .LedgerCallFailed⟩ else
  let close_pdas_temp_acc_ix :=
    LedgerCall.closeAccount pdas_temp_token_account.key
      initializers_main_account.key env.pda
  if !env.ledgerOk 2 then
    ⟨[transfer_to_initializer_ix, transfer_to_taker_ix, close_pdas_temp_acc_ix],
      none, false, false, some .LedgerCallFailed⟩ else
  if U64 ≤ initializers_main_account.lamports + escrow_account.lamports then
    ⟨[transfer_to_initializer_ix, transfer_to_taker_ix, close_pdas_temp_acc_ix],
      none, false, false, some .AmountOverflow⟩
  else
    ⟨[transfer_to_initializer_ix, transfer_to_taker_ix, close_pdas_temp_acc_ix],
      none, true, true, none⟩

/-- processor.rs lines 232-327 (process_cancel).  Accounts are consumed
positionally in source order.  The time gate at lines 250-253 RETURNS
the error TimeConstraintWasNotSatisfied precisely when the current slot
is strictly between unlock_time and unlock_time + 1000 (wrapping u64
addition), and falls through to the custody movement at every other
time (also before unlock_time).  The identity checks at lines 255-265
name two identifiers that are not in scope in the source
(temp_token_account and initializers_token_to_receive_account); they
are resolved here to the accounts holding those roles in this handler,
pda_token_account and initializer_sent_token_account. -/
def process_cancel (env : Env) (accounts : List AccountInfo)
    (program_id : Nat) : Outcome :=
  match accounts[0]? with
  | none => noEffect (some .NotEnoughAccountKeys)
  | some initializer =>
  if !initializer.is_signer then noEffect (some .MissingRequiredSignature) else
  match accounts[1]? with
  | none => noEffect (some .NotEnoughAccountKeys)
  | some pda_token_account =>
  match accounts[2]? with
  | none => noEffect (some .NotEnoughAccountKeys)
  | some initializer_main_account =>
  match accounts[3]? with
  | none => noEffect (some .NotEnoughAccountKeys)
  | some initializer_sent_token_account =>
  match accounts[4]? with
  | none => noEffect (some .NotEnoughAccountKeys)
  | some escrow_account =>
  if escrow_account.owner ≠ program_id ∨ escrow_account.is_writable = false then
    noEffect (some .IllegalOwner) else
  match Escrow.unpack escrow_account with
  | .error e => noEffect (some e)
  | .ok escrow_info =>
  if escrow_info.unlock_time < env.clock_slot ∧
      env.clock_slot < (escrow_info.unlock_time + 1000) % U64 then
    noEffect (some .TimeConstraintWasNotSatisfied) else
  if escrow_info.temp_token_account_pubkey ≠ pda_token_account.key then
    noEffect (some .InvalidAccountData) else
  if escrow_info.initializer_pubkey ≠ initializer_main_account.key then
    noEffect (some .InvalidAccountData) else
  if escrow_info.initializer_token_to_receive_account_pubkey ≠
      initializer_sent_token_account.key then
    noEffect (some .InvalidAccountData) else
  if escrow_info.initializer_pubkey ≠ initializer.key then
    noEffect (some .InvalidAccountData) else
  match accounts[5]? with
  | none => noEffect (some .NotEnoughAccountKeys)
  | some _token_program =>
  match accounts[6]? with
  | none => noEffect (some .NotEnoughAccountKeys)
  | some _pda_account_info =>
  match TokenAccount.unpack pda_token_account with
  | .error e => noEffect (some e)
  | .ok pda_token_account_info =>
  let transfer_to_initializer_ix :=
    LedgerCall.transfer pda_token_account.key
      initializer_sent_token_account.key env.pda
      pda_token_account_info.amount
  if !env.ledgerOk 0 then
    ⟨[transfer_to_initializer_ix], none, false, false, some .LedgerCallFailed⟩ else
  let close_escrow_token_acct_ix :=
    LedgerCall.closeAccount pda_token_account.key
      initializer_main_account.key env.pda
  if !env.ledgerOk 1 then
    ⟨[transfer_to_initializer_ix, close_escrow_token_acct_ix], none, false, false,
      some .LedgerCallFailed⟩ else
  if U64 ≤ initializer_main_account.lamports + escrow_account.lamports then
    ⟨[transfer_to_initializer_ix, close_escrow_token_acct_ix], none, false, false,
      some .AmountOverflow⟩
  else
    ⟨[transfer_to_initializer_ix, close_escrow_token_acct_ix], none, true, true, none⟩

/-- Modelled from the spec: the fixed increment by which ResetTimeLock
extends the lock from the current logical time (the spec's
FIXED_LOCK_DURATION, "a fixed window, e.g. 100 ticks"). -/
def RESET_LOCK_INCREMENT : Nat := 100

/-- Modelled from the spec: process_reset_timelock is dispatched by
Processor::process (processor.rs lines 39-42) but is absent from the
sources.  Per the spec, its account list is [signer initializer,
writable record account]; its preconditions are that the caller is a
verified signer matching the record's initializer identity and that the
record is initialized; its effect is to set unlock_time to the current
logical time plus a fixed increment, leaving every other field
unchanged, and it issues no token-ledger call. -/
def process_reset_timelock (env : Env) (accounts : List AccountInfo)
    (program_id : Nat) : Outcome :=
  match accounts[0]? with
  | none => noEffect (some .NotEnoughAccountKeys)
  | some initializer =>
  if !initializer.is_signer then noEffect (some .MissingRequiredSignature) else
  match accounts[1]? with
  | none => noEffect (some .NotEnoughAccountKeys)
  | some escrow_account =>
  match Escrow.unpack escrow_account with
  | .error e => noEffect (some e)
  | .ok escrow_info =>
  if escrow_info.initializer_pubkey ≠ initializer.key then
    noEffect (some .InvalidAccountData) else
  ⟨[], some { escrow_info with
      unlock_time := (env.clock_slot + RESET_LOCK_INCREMENT) % U64 },
    false, false, none⟩

/-- processor.rs lines 23-48 (Processor::process): decode the
instruction bytes and dispatch to the handler of the decoded
variant. -/
def Processor.process (env : Env) (program_id : Nat)
    (accounts : List AccountInfo) (instruction_data : List Nat) : Outcome :=
  match EscrowInstruction.unpack instruction_data with
  | .error e => noEffect (some e)
  | .ok (.InitEscrow amount) => process_init_escrow env accounts amount program_id
  | .ok (.Exchange amount) => process_exchange env accounts amount program_id
  | .ok .ResetTimeLock => process_reset_timelock env accounts program_id
  | .ok .Cancel => process_cancel env accounts program_id


lemma unpack_amount_to_le_bytes (a : Nat) (h : a < U64) :
    EscrowInstruction.unpack_amount (u64_to_le_bytes a) = .ok a := by
  have hlen : (u64_to_le_bytes a).length = 8 := by simp [u64_to_le_bytes]
  unfold EscrowInstruction.unpack_amount
  rw [if_pos (by omega), List.take_of_length_le (by omega), u64_le_roundtrip a h]

/-- C8: for every instruction value of the four variants whose amount
field (when present) is an unsigned 64-bit value — 0 and the maximum
included — decoding the encoding of the instruction yields the
instruction back. -/
theorem c8_decode_encode_roundtrip (i : EscrowInstruction)
    (h : EscrowInstruction.amount_wf i) :
    EscrowInstruction.unpack (EscrowInstruction.pack i) = .ok i := by
  cases i with
  | InitEscrow amount =>
      have ha : amount < U64 := h
      simp [EscrowInstruction.pack, EscrowInstruction.unpack,
        unpack_amount_to_le_bytes amount ha]
  | Exchange amount =>
      have ha : amount < U64 := h
      simp [EscrowInstruction.pack, EscrowInstruction.unpack,
        unpack_amount_to_le_bytes amount ha]
  | ResetTimeLock => rfl
  | Cancel => rfl

/-- Witness for C8 at the maximum unsigned 64-bit amount. -/
theorem c8_decode_encode_roundtrip_witness :
    EscrowInstruction.amount_wf (.InitEscrow (U64 - 1)) ∧
    EscrowInstruction.unpack (EscrowInstruction.pack (.InitEscrow (U64 - 1))) =
      .ok (.InitEscrow (U64 - 1)) :=
  ⟨by decide, c8_decode_encode_roundtrip (.InitEscrow (U64 - 1)) (by decide)⟩

lemma unpack_tag0_long (rest : List Nat) (h8 : 8 ≤ rest.length) :
    EscrowInstruction.unpack (0 :: rest) =
      .ok (.InitEscrow (u64_from_le_bytes (rest.take 8))) := by
  simp [EscrowInstruction.unpack, EscrowInstruction.unpack_amount, h8]

lemma unpack_tag0_short (rest : List Nat) (h8 : ¬ 8 ≤ rest.length) :
    EscrowInstruction.unpack (0 :: rest) = .error .InvalidInstruction := by
  simp [EscrowInstruction.unpack, EscrowInstruction.unpack_amount, h8]

lemma unpack_tag1_long (rest : List Nat) (h8 : 8 ≤ rest.length) :
    EscrowInstruction.unpack (1 :: rest) =
      .ok (.Exchange (u64_from_le_bytes (rest.take 8))) := by
  simp [EscrowInstruction.unpack, EscrowInstruction.unpack_amount, h8]

lemma unpack_tag1_short (rest : List Nat) (h8 : ¬ 8 ≤ rest.length) :
    EscrowInstruction.unpack (1 :: rest) = .error .InvalidInstruction := by
  simp [EscrowInstruction.unpack, EscrowInstruction.unpack_amount, h8]

lemma unpack_tag2 (rest : List Nat) :
    EscrowInstruction.unpack (2 :: rest) = .ok .ResetTimeLock := rfl

lemma unpack_tag3 (rest : List Nat) :
    EscrowInstruction.unpack (3 :: rest) = .ok .Cancel := rfl

lemma unpack_tag_other (tag : Nat) (rest : List Nat) (h0 : tag ≠ 0)
    (h1 : tag ≠ 1) (h2 : tag ≠ 2) (h3 : tag ≠ 3) :
    EscrowInstruction.unpack (tag :: rest) = .error .InvalidInstruction := by
  simp [EscrowInstruction.unpack, h0, h1, h2, h3]

/-- C9: decoding fails — always with InvalidInstruction — exactly when
the buffer is empty, its tag byte is outside 0..3, or the tag is 0 or 1
and fewer than 8 bytes follow it; every other buffer decodes to an
instruction. -/
theorem c9_decode_error_characterisation (input : List Nat) :
    ((∃ i, EscrowInstruction.unpack input = .ok i) ∨
      EscrowInstruction.unpack input = .error .InvalidInstruction) ∧
    (EscrowInstruction.unpack input = .error .InvalidInstruction ↔
      (input = [] ∨ ∃ tag rest, input = tag :: rest ∧
        ((tag ≠ 0 ∧ tag ≠ 1 ∧ tag ≠ 2 ∧ tag ≠ 3) ∨
          ((tag = 0 ∨ tag = 1) ∧ rest.length < 8)))) := by
  match input with
  | [] => simp [EscrowInstruction.unpack]
  | tag :: rest =>
    have hiff : ((tag :: rest = []) ∨ ∃ t r, tag :: rest = t :: r ∧
        ((t ≠ 0 ∧ t ≠ 1 ∧ t ≠ 2 ∧ t ≠ 3) ∨
          ((t = 0 ∨ t = 1) ∧ r.length < 8))) ↔
        ((tag ≠ 0 ∧ tag ≠ 1 ∧ tag ≠ 2 ∧ tag ≠ 3) ∨
          ((tag = 0 ∨ tag = 1) ∧ rest.length < 8)) := by
      constructor
      · rintro (hnil | ⟨t, r, heq, hc⟩)
        · exact absurd hnil (by simp)
        · injection heq with ht hr
          subst ht; subst hr; exact hc
      · intro hc
        exact Or.inr ⟨tag, rest, rfl, hc⟩
    rw [hiff]
    by_cases h0 : tag = 0
    · subst h0
      by_cases h8 : 8 ≤ rest.length
      · rw [unpack_tag0_long rest h8]
        refine ⟨Or.inl ⟨_, rfl⟩, ?_⟩
        constructor
        · intro h; exact Except.noConfusion h
        · intro hc; exfalso
          rcases hc with ⟨hne, _⟩ | ⟨_, hlen⟩
          · exact hne rfl
          · omega
      · rw [unpack_tag0_short rest h8]
        refine ⟨Or.inr rfl, ?_⟩
        constructor
        · intro _; exact Or.inr ⟨Or.inl rfl, by omega⟩
        · intro _; rfl
    · by_cases h1 : tag = 1
      · subst h1
        by_cases h8 : 8 ≤ rest.length
        · rw [unpack_tag1_long rest h8]
          refine ⟨Or.inl ⟨_, rfl⟩, ?_⟩
          constructor
          · intro h; exact Except.noConfusion h
          · intro hc; exfalso
            rcases hc with ⟨_, hne, _⟩ | ⟨_, hlen⟩
            · exact hne rfl
            · omega
        · rw [unpack_tag1_short rest h8]
          refine ⟨Or.inr rfl, ?_⟩
          constructor
          · intro _; exact Or.inr ⟨Or.inr rfl, by omega⟩
          · intro _; rfl
      · by_cases h2 : tag = 2
        · subst h2
          rw [unpack_tag2 rest]
          refine ⟨Or.inl ⟨_, rfl⟩, ?_⟩
          constructor
          · intro h; exact Except.noConfusion h
          · intro hc; exfalso
            rcases hc with ⟨_, _, hne, _⟩ | ⟨ht, _⟩
            · exact hne rfl
            · rcases ht with ht | ht <;> omega
        · by_cases h3 : tag = 3
          · subst h3
            rw [unpack_tag3 rest]
            refine ⟨Or.inl ⟨_, rfl⟩, ?_⟩
            constructor
            · intro h; exact Except.noConfusion h
            · intro hc; exfalso
              rcases hc with ⟨_, _, _, hne⟩ | ⟨ht, _⟩
              · exact hne rfl
              · rcases ht with ht | ht <;> omega
          · rw [unpack_tag_other tag rest h0 h1 h2 h3]
            refine ⟨Or.inr rfl, ?_⟩
            constructor
            · intro _; exact Or.inl ⟨h0, h1, h2, h3⟩
            · intro _; rfl

/-- C10: decoding ignores surplus trailing bytes — tags 0 and 1 with at
least 8 following bytes decode using only the first 8 of them, and tags
2 and 3 decode regardless of trailing bytes — so decoding is not
injective and re-encoding a decoded buffer need not give the buffer
back. -/
theorem c10_decode_ignores_trailing_bytes (rest rest2 : List Nat)
    (h8 : 8 ≤ rest.length) :
    EscrowInstruction.unpack (0 :: rest) =
      .ok (.InitEscrow (u64_from_le_bytes (rest.take 8))) ∧
    EscrowInstruction.unpack (1 :: rest) =
      .ok (.Exchange (u64_from_le_bytes (rest.take 8))) ∧
    EscrowInstruction.unpack (2 :: rest2) = .ok .ResetTimeLock ∧
    EscrowInstruction.unpack (3 :: rest2) = .ok .Cancel ∧
    (∃ b1 b2, b1 ≠ b2 ∧
      EscrowInstruction.unpack b1 = EscrowInstruction.unpack b2 ∧
      ∃ i, EscrowInstruction.unpack b1 = .ok i) ∧
    (∃ b i, EscrowInstruction.unpack b = .ok i ∧
      EscrowInstruction.pack i ≠ b) := by
  refine ⟨unpack_tag0_long rest h8, unpack_tag1_long rest h8,
    unpack_tag2 rest2, unpack_tag3 rest2,
    ⟨[2], [2, 7], by decide, rfl, .ResetTimeLock, rfl⟩,
    ⟨[2, 7], .ResetTimeLock, rfl, by decide⟩⟩

/-- Witness for C10: a 9-byte payload after tag 0 decodes from its
first 8 bytes only. -/
theorem c10_decode_ignores_trailing_bytes_witness :
    8 ≤ ([5, 0, 0, 0, 0, 0, 0, 0, 9] : List Nat).length ∧
    EscrowInstruction.unpack (0 :: [5, 0, 0, 0, 0, 0, 0, 0, 9]) =
      .ok (.InitEscrow
        (u64_from_le_bytes (([5, 0, 0, 0, 0, 0, 0, 0, 9] : List Nat).take 8))) :=
  ⟨by decide,
    (c10_decode_ignores_trailing_bytes [5, 0, 0, 0, 0, 0, 0, 0, 9] []
      (by decide)).1⟩

/-- Environment for the InitEscrow evaluation of C2: logical clock at
slot 7, permissive rent policy, all token-ledger calls succeed. -/
def c2Env : Env := ⟨7, fun _ _ => true, fun _ => true, 99, 1, 7⟩

/-- Caller-supplied accounts for the InitEscrow evaluation of C2: a
signing initializer (key 1), the temporary token account (key 2), the
receiving token account (key 3, owned by the token program), the
escrow account (key 4) holding an uninitialized record with
unlock_time 0, the rent sysvar, and the token program account. -/
def c2Accounts : List AccountInfo :=
  [⟨1, true, true, 11, 10, 0, none, none⟩,
   ⟨2, false, true, 7, 0, 0, some ⟨400⟩, none⟩,
   ⟨3, false, false, 7, 0, 0, none, none⟩,
   ⟨4, false, true, 12, 100, 10, none, some ⟨false, 0, 0, 0, 0, 0⟩⟩,
   ⟨5, false, false, 13, 0, 0, none, none⟩,
   ⟨7, false, false, 14, 0, 0, none, none⟩]

/-- C2 (divergence): a successful InitEscrow(500) at logical time 7
persists the caller identity, deposit-slot identity, receiving-account
identity and expected amount as claimed, but the persisted unlock_time
is the record's prior value 0, not 7 + 100 = 107: line 55 of
processor.rs computes the lock expiry into a local that lines 82-86
never assign to the record. -/
theorem c2_unlock_time_never_stored :
    (process_init_escrow c2Env c2Accounts 500 9).err = none ∧
    (process_init_escrow c2Env c2Accounts 500 9).recordWrite =
      some ⟨true, 1, 2, 3, 500, 0⟩ ∧
    c2Env.clock_slot + 100 = 107 ∧ (0 : Nat) ≠ 107 := by decide

/-- Environment for a Cancel attempted at slot 50, before the record's
unlock time 100; all token-ledger calls succeed. -/
def cancelEnvEarly : Env := ⟨50, fun _ _ => true, fun _ => true, 99, 1, 7⟩

/-- An initialized escrow record: initializer key 1, deposit slot
key 2, receiving account key 3, expected amount 500, unlock time
100. -/
def cancelRec : Escrow := ⟨true, 1, 2, 3, 500, 100⟩

/-- Caller-supplied accounts for Cancel, matching cancelRec: the
signing initializer (key 1), the custody token account (key 2, balance
400), the initializer's main account (key 1), the initializer's
receiving token account (key 3), the escrow account (key 4, owned by
program 9, writable, holding cancelRec), the token program and the pda
account. -/
def cancelAccounts : List AccountInfo :=
  [⟨1, true, true, 11, 10, 0, none, none⟩,
   ⟨2, false, true, 7, 0, 0, some ⟨400⟩, none⟩,
   ⟨1, false, true, 11, 20, 0, none, none⟩,
   ⟨3, false, true, 7, 0, 0, none, none⟩,
   ⟨4, false, true, 9, 100, 10, none, some cancelRec⟩,
   ⟨7, false, false, 14, 0, 0, none, none⟩,
   ⟨99, false, false, 15, 0, 0, none, none⟩]

/-- C3 (divergence): at slot 50, strictly before the record's unlock
time 100, Cancel does not fail with TimeConstraintWasNotSatisfied — the
time gate of processor.rs lines 250-253 passes, the custody transfer
and close calls are issued, and the invocation succeeds, clearing the
record. -/
theorem c3_cancel_before_unlock_succeeds :
    cancelEnvEarly.clock_slot < cancelRec.unlock_time ∧
    (process_cancel cancelEnvEarly cancelAccounts 9).err = none ∧
    (process_cancel cancelEnvEarly cancelAccounts 9).calls ≠ [] ∧
    (process_cancel cancelEnvEarly cancelAccounts 9).recordCleared = true := by
  decide

/-- Environment for a Cancel attempted at slot 500, strictly inside the
band between unlock time 100 and 100 + 1000. -/
def cancelEnvInBand : Env := ⟨500, fun _ _ => true, fun _ => true, 99, 1, 7⟩

/-- C4 (counterexample): at slot 500, strictly after unlock time 100
and strictly before 100 + 1000, Cancel is not permitted: it fails with
TimeConstraintWasNotSatisfied and issues no token-ledger call, the
opposite of the claimed allowed band. -/
theorem c4_in_band_cancel_rejected :
    cancelRec.unlock_time < cancelEnvInBand.clock_slot ∧
    cancelEnvInBand.clock_slot < cancelRec.unlock_time + 1000 ∧
    (process_cancel cancelEnvInBand cancelAccounts 9).err =
      some .TimeConstraintWasNotSatisfied ∧
    (process_cancel cancelEnvInBand cancelAccounts 9).calls = [] := by decide

/-- C7: with the earlier InitEscrow checks passing (a signing
initializer, a receiving account owned by the token program, a
rent-exempt escrow account with well-sized record data), a record whose
initialized flag is already set makes InitEscrow fail with
AccountAlreadyInitialized, performing no record write and no
token-ledger call. -/
theorem c7_init_on_initialized_record (env : Env) (accounts : List AccountInfo)
    (amount program_id : Nat)
    (initializer temp recv escrow_acct rent_acct : AccountInfo) (r : Escrow)
    (h0 : accounts[0]? = some initializer)
    (hs : initializer.is_signer = true)
    (h1 : accounts[1]? = some temp)
    (h2 : accounts[2]? = some recv)
    (ho : recv.owner = env.spl_token_id)
    (h3 : accounts[3]? = some escrow_acct)
    (h4 : accounts[4]? = some rent_acct)
    (hr : env.rentIsExempt escrow_acct.lamports escrow_acct.data_len = true)
    (hd : escrow_acct.escrowData = some r)
    (hi : r.is_initialized = true) :
    process_init_escrow env accounts amount program_id =
      noEffect (some .AccountAlreadyInitialized) := by
  simp [process_init_escrow, h0, hs, h1, h2, ho, h3, h4, hr,
    Escrow.unpack_unchecked, hd, hi]

/-- Witness for C7: the C2 account list with the escrow record already
initialized. -/
def c7Accounts : List AccountInfo :=
  [⟨1, true, true, 11, 10, 0, none, none⟩,
   ⟨2, false, true, 7, 0, 0, some ⟨400⟩, none⟩,
   ⟨3, false, false, 7, 0, 0, none, none⟩,
   ⟨4, false, true, 12, 100, 10, none, some ⟨true, 8, 8, 8, 8, 8⟩⟩,
   ⟨5, false, false, 13, 0, 0, none, none⟩,
   ⟨7, false, false, 14, 0, 0, none, none⟩]

/-- Witness for C7 at a concrete input. -/
theorem c7_init_on_initialized_record_witness :
    process_init_escrow c2Env c7Accounts 500 9 =
      noEffect (some .AccountAlreadyInitialized) :=
  c7_init_on_initialized_record c2Env c7Accounts 500 9 _ _ _ _ _
    ⟨true, 8, 8, 8, 8, 8⟩ rfl rfl rfl rfl rfl rfl rfl rfl rfl rfl

/-- C6: with all nine Exchange accounts supplied, the taker signing and
the custody token account readable as a token account, Exchange fails
with ExpectedAmountMismatch — issuing no token-ledger call, writing
nothing and leaving the record intact — whenever the supplied amount
differs from the custody slot's live balance (by one unit or any
other margin, in either direction), and it can succeed only when the
two are exactly equal. -/
theorem c6_exchange_amount_mismatch (env : Env) (accounts : List AccountInfo)
    (amt program_id : Nat) (taker temp : AccountInfo) (tok : TokenAccount)
    (hlen : 9 ≤ accounts.length)
    (h0 : accounts[0]? = some taker)
    (hs : taker.is_signer = true)
    (h3 : accounts[3]? = some temp)
    (ht : temp.tokenData = some tok) :
    (amt ≠ tok.amount →
      process_exchange env accounts amt program_id =
        noEffect (some .ExpectedAmountMismatch)) ∧
    ((process_exchange env accounts amt program_id).err = none →
      amt = tok.amount) := by
  obtain ⟨a1, h1⟩ : ∃ a, accounts[1]? = some a :=
    ⟨_, List.getElem?_eq_getElem (by omega)⟩
  obtain ⟨a2, h2⟩ : ∃ a, accounts[2]? = some a :=
    ⟨_, List.getElem?_eq_getElem (by omega)⟩
  have hmm : ∀ hne : amt ≠ tok.amount,
      process_exchange env accounts amt program_id =
        noEffect (some .ExpectedAmountMismatch) := by
    intro hne
    simp [process_exchange, h0, hs, h1, h2, h3, TokenAccount.unpack, ht, hne]
  refine ⟨hmm, ?_⟩
  intro hok
  by_contra hne
  rw [hmm hne] at hok
  simp [noEffect] at hok

/-- Environment for the C6 witness. -/
def c6Env : Env := ⟨0, fun _ _ => true, fun _ => true, 99, 1, 7⟩

/-- Caller-supplied accounts for the C6 witness: nine accounts with a
signing taker and a custody token account holding 500 tokens. -/
def c6Accounts : List AccountInfo :=
  [⟨1, true, true, 11, 10, 0, none, none⟩,
   ⟨2, false, true, 7, 0, 0, some ⟨300⟩, none⟩,
   ⟨3, false, true, 7, 0, 0, none, none⟩,
   ⟨4, false, true, 7, 0, 0, some ⟨500⟩, none⟩,
   ⟨5, false, true, 11, 20, 0, none, none⟩,
   ⟨6, false, true, 7, 0, 0, none, none⟩,
   ⟨8, false, true, 9, 100, 10, none, some ⟨true, 5, 4, 6, 499, 0⟩⟩,
   ⟨7, false, false, 14, 0, 0, none, none⟩,
   ⟨99, false, false, 15, 0, 0, none, none⟩]

/-- Witness for C6: supplying 499 against a custody balance of 500 (one
unit short) fails with ExpectedAmountMismatch and has no effect. -/
theorem c6_exchange_amount_mismatch_witness :
    process_exchange c6Env c6Accounts 499 9 =
      noEffect (some .ExpectedAmountMismatch) :=
  (c6_exchange_amount_mismatch c6Env c6Accounts 499 9 _ _ ⟨500⟩
    (by decide) rfl rfl rfl rfl).1 (by decide)

/-- C5: against the spec-modelled ResetTimeLock handler (the source
dispatches to it but does not define it), an invocation whose caller is
a verified signer matching the initialized record's initializer
identity succeeds, sets unlock_time to the current logical time plus
the fixed increment, leaves every other field unchanged, and issues no
token-ledger call. -/
theorem c5_reset_timelock_extends_lock (env : Env)
    (accounts : List AccountInfo) (program_id : Nat)
    (initializer escrow_acct : AccountInfo) (r : Escrow)
    (h0 : accounts[0]? = some initializer)
    (hs : initializer.is_signer = true)
    (h1 : accounts[1]? = some escrow_acct)
    (hd : escrow_acct.escrowData = some r)
    (hi : r.is_initialized = true)
    (hk : r.initializer_pubkey = initializer.key) :
    process_reset_timelock env accounts program_id =
      ⟨[], some { r with
          unlock_time := (env.clock_slot + RESET_LOCK_INCREMENT) % U64 },
        false, false, none⟩ := by
  simp [process_reset_timelock, h0, hs, h1, Escrow.unpack,
    Escrow.unpack_unchecked, hd, hi, hk]

/-- Environment for the C5 witness: logical clock at slot 40. -/
def c5Env : Env := ⟨40, fun _ _ => true, fun _ => true, 99, 1, 7⟩

/-- Caller-supplied accounts for the C5 witness: the signing
initializer (key 1) and the escrow account holding an initialized
record whose initializer identity is key 1. -/
def c5Accounts : List AccountInfo :=
  [⟨1, true, true, 11, 10, 0, none, none⟩,
   ⟨4, false, true, 9, 100, 10, none, some ⟨true, 1, 2, 3, 500, 100⟩⟩]

/-- Witness for C5: at slot 40 the reset rewrites unlock_time to 140
and changes nothing else. -/
theorem c5_reset_timelock_extends_lock_witness :
    process_reset_timelock c5Env c5Accounts 9 =
      ⟨[], some ⟨true, 1, 2, 3, 500, 140⟩, false, false, none⟩ :=
  c5_reset_timelock_extends_lock c5Env c5Accounts 9 _ _
    ⟨true, 1, 2, 3, 500, 100⟩ rfl rfl rfl rfl rfl rfl

/-- C4 (amended): with the Cancel checks that precede the time gate
passing (five accounts supplied, a signing caller, a writable
program-owned escrow account holding an initialized record), the
invocation fails with TimeConstraintWasNotSatisfied exactly when the
current logical time is strictly after the record's unlock_time and
strictly before unlock_time + 1000 (wrapping u64 addition): the gate
REJECTS cancellation inside that band and lets every other time —
before unlock_time included — fall through. -/
theorem c4_time_gate_characterisation (env : Env)
    (accounts : List AccountInfo) (program_id : Nat)
    (initializer pda_tok main sent escrow_acct : AccountInfo) (r : Escrow)
    (h0 : accounts[0]? = some initializer)
    (hs : initializer.is_signer = true)
    (h1 : accounts[1]? = some pda_tok)
    (h2 : accounts[2]? = some main)
    (h3 : accounts[3]? = some sent)
    (h4 : accounts[4]? = some escrow_acct)
    (ho : escrow_acct.owner = program_id)
    (hw : escrow_acct.is_writable = true)
    (hd : escrow_acct.escrowData = some r)
    (hi : r.is_initialized = true) :
    ((process_cancel env accounts program_id).err =
        some .TimeConstraintWasNotSatisfied ↔
      (r.unlock_time < env.clock_slot ∧
        env.clock_slot < (r.unlock_time + 1000) % U64)) := by
  by_cases hc : r.unlock_time < env.clock_slot ∧
      env.clock_slot < (r.unlock_time + 1000) % U64
  · simp [process_cancel, h0, hs, h1, h2, h3, h4, ho, hw,
      Escrow.unpack, Escrow.unpack_unchecked, hd, hi, hc, noEffect]
  · rcases hpd : pda_tok.tokenData with _ | tok <;>
      simp [process_cancel, h0, hs, h1, h2, h3, h4, ho, hw,
        Escrow.unpack, Escrow.unpack_unchecked, hd, hi, hc, noEffect,
        TokenAccount.unpack, hpd] <;>
      (repeat' split) <;> simp_all [noEffect]

/-- Witness for C4 at a concrete input inside the band. -/
theorem c4_time_gate_characterisation_witness :
    ((process_cancel cancelEnvInBand cancelAccounts 9).err =
        some .TimeConstraintWasNotSatisfied ↔
      (cancelRec.unlock_time < cancelEnvInBand.clock_slot ∧
        cancelEnvInBand.clock_slot < (cancelRec.unlock_time + 1000) % U64)) :=
  c4_time_gate_characterisation cancelEnvInBand cancelAccounts 9 _ _ _ _ _
    cancelRec rfl rfl rfl rfl rfl rfl rfl rfl rfl rfl

/-- A precondition-style failure (any error other than a failed
token-ledger call and other than the sweep-overflow error, which both
arise only during the effect phase) leaves an empty ledger-call
trace. -/
def checks_first (o : Outcome) : Prop :=
  ∀ e, o.err = some e → e ≠ .LedgerCallFailed → e ≠ .AmountOverflow →
    o.calls = []

/-- A failed token-ledger call is immediately fatal: the trace never
extends past the failing call (the k-th call failing bounds the trace
at k + 1 calls, and a trace of exactly k + 1 calls then ends in the
ledger-failure error), and a successful invocation only ever issued
calls that succeeded. -/
def ledger_failure_fatal (env : Env) (o : Outcome) : Prop :=
  (env.ledgerOk 0 = false → o.calls.length ≤ 1 ∧
    (o.calls.length = 1 → o.err = some .LedgerCallFailed)) ∧
  (env.ledgerOk 1 = false → o.calls.length ≤ 2 ∧
    (o.calls.length = 2 → o.err = some .LedgerCallFailed)) ∧
  (env.ledgerOk 2 = false → o.calls.length ≤ 3 ∧
    (o.calls.length = 3 → o.err = some .LedgerCallFailed)) ∧
  (o.err = none →
    (1 ≤ o.calls.length → env.ledgerOk 0 = true) ∧
    (2 ≤ o.calls.length → env.ledgerOk 1 = true) ∧
    (3 ≤ o.calls.length → env.ledgerOk 2 = true))

/-- The possible outcome shapes of process_init_escrow. -/
def init_shape_prop (env : Env) (o : Outcome) : Prop :=
  (∃ e, o = noEffect (some e) ∧ e ≠ .LedgerCallFailed ∧ e ≠ .AmountOverflow) ∨
  (∃ w, o = ⟨[], some w, false, false, some .NotEnoughAccountKeys⟩) ∨
  (∃ c w, o = ⟨[c], some w, false, false, some .LedgerCallFailed⟩ ∧
    env.ledgerOk 0 = false) ∨
  (∃ c w, o = ⟨[c], some w, false, false, none⟩ ∧ env.ledgerOk 0 = true)

/-- The possible outcome shapes of process_exchange.  The third shape
is the one the spec does not anticipate: one call already issued and a
missing-account failure only afterwards. -/
def exchange_shape_prop (env : Env) (o : Outcome) : Prop :=
  (∃ e, o = noEffect (some e) ∧ e ≠ .LedgerCallFailed ∧ e ≠ .AmountOverflow) ∨
  (∃ c, o = ⟨[c], none, false, false, some .LedgerCallFailed⟩ ∧
    env.ledgerOk 0 = false) ∨
  (∃ c, o = ⟨[c], none, false, false, some .NotEnoughAccountKeys⟩ ∧
    env.ledgerOk 0 = true) ∨
  (∃ c1 c2, o = ⟨[c1, c2], none, false, false, some .LedgerCallFailed⟩ ∧
    env.ledgerOk 0 = true ∧ env.ledgerOk 1 = false) ∨
  (∃ c1 c2 c3, o = ⟨[c1, c2, c3], none, false, false, some .LedgerCallFailed⟩ ∧
    env.ledgerOk 0 = true ∧ env.ledgerOk 1 = true ∧ env.ledgerOk 2 = false) ∨
  (∃ c1 c2 c3, o = ⟨[c1, c2, c3], none, false, false, some .AmountOverflow⟩ ∧
    env.ledgerOk 0 = true ∧ env.ledgerOk 1 = true ∧ env.ledgerOk 2 = true) ∨
  (∃ c1 c2 c3, o = ⟨[c1, c2, c3], none, true, true, none⟩ ∧
    env.ledgerOk 0 = true ∧ env.ledgerOk 1 = true ∧ env.ledgerOk 2 = true)

/-- The possible outcome shapes of process_cancel. -/
def cancel_shape_prop (env : Env) (o : Outcome) : Prop :=
  (∃ e, o = noEffect (some e) ∧ e ≠ .LedgerCallFailed ∧ e ≠ .AmountOverflow) ∨
  (∃ c, o = ⟨[c], none, false, false, some .LedgerCallFailed⟩ ∧
    env.ledgerOk 0 = false) ∨
  (∃ c1 c2, o = ⟨[c1, c2], none, false, false, some .LedgerCallFailed⟩ ∧
    env.ledgerOk 0 = true ∧ env.ledgerOk 1 = false) ∨
  (∃ c1 c2, o = ⟨[c1, c2], none, false, false, some .AmountOverflow⟩ ∧
    env.ledgerOk 0 = true ∧ env.ledgerOk 1 = true) ∨
  (∃ c1 c2, o = ⟨[c1, c2], none, true, true, none⟩ ∧
    env.ledgerOk 0 = true ∧ env.ledgerOk 1 = true)

/-- The possible outcome shapes of process_reset_timelock. -/
def reset_shape_prop (o : Outcome) : Prop :=
  (∃ e, o = noEffect (some e) ∧ e ≠ .LedgerCallFailed ∧ e ≠ .AmountOverflow) ∨
  (∃ w, o = ⟨[], some w, false, false, none⟩)

lemma tokenAccount_unpack_error (a : AccountInfo) (e : ProgramError)
    (h : TokenAccount.unpack a = .error e) : e = .InvalidAccountData := by
  unfold TokenAccount.unpack at h
  split at h <;> simp_all

lemma escrow_unpack_unchecked_error (a : AccountInfo) (e : ProgramError)
    (h : Escrow.unpack_unchecked a = .error e) : e = .InvalidAccountData := by
  unfold Escrow.unpack_unchecked at h
  split at h <;> simp_all

lemma escrow_unpack_error (a : AccountInfo) (e : ProgramError)
    (h : Escrow.unpack a = .error e) :
    e = .InvalidAccountData ∨ e = .UninitializedAccount := by
  unfold Escrow.unpack at h
  split at h
  · rename_i e' heq'
    simp only [Except.error.injEq] at h
    subst h
    exact Or.inl (escrow_unpack_unchecked_error a e' heq')
  · rename_i r heq'
    split at h
    · simp at h
    · simp only [Except.error.injEq] at h
      exact Or.inr h.symm

set_option maxHeartbeats 2000000 in
lemma init_shape (env : Env) (accounts : List AccountInfo) (amt pid : Nat) :
    init_shape_prop env (process_init_escrow env accounts amt pid) := by
  unfold process_init_escrow
  (repeat' split) <;>
    first
      | (rename_i heq
         rcases tokenAccount_unpack_error _ _ heq with rfl
         simp_all [init_shape_prop, noEffect])
      | (rename_i heq
         rcases escrow_unpack_unchecked_error _ _ heq with rfl
         simp_all [init_shape_prop, noEffect])
      | (rename_i heq
         rcases escrow_unpack_error _ _ heq with rfl | rfl <;>
           simp_all [init_shape_prop, noEffect])
      | simp_all [init_shape_prop, noEffect]

set_option maxHeartbeats 2000000 in
lemma exchange_shape (env : Env) (accounts : List AccountInfo) (amt pid : Nat) :
    exchange_shape_prop env (process_exchange env accounts amt pid) := by
  unfold process_exchange
  (repeat' split) <;>
    first
      | (rename_i heq
         rcases tokenAccount_unpack_error _ _ heq with rfl
         simp_all [exchange_shape_prop, noEffect])
      | (rename_i heq
         rcases escrow_unpack_unchecked_error _ _ heq with rfl
         simp_all [exchange_shape_prop, noEffect])
      | (rename_i heq
         rcases escrow_unpack_error _ _ heq with rfl | rfl <;>
           simp_all [exchange_shape_prop, noEffect])
      | simp_all [exchange_shape_prop, noEffect]

set_option maxHeartbeats 2000000 in
lemma cancel_shape (env : Env) (accounts : List AccountInfo) (pid : Nat) :
    cancel_shape_prop env (process_cancel env accounts pid) := by
  unfold process_cancel
  (repeat' split) <;>
    first
      | (rename_i heq
         rcases tokenAccount_unpack_error _ _ heq with rfl
         simp_all [cancel_shape_prop, noEffect])
      | (rename_i heq
         rcases escrow_unpack_unchecked_error _ _ heq with rfl
         simp_all [cancel_shape_prop, noEffect])
      | (rename_i heq
         rcases escrow_unpack_error _ _ heq with rfl | rfl <;>
           simp_all [cancel_shape_prop, noEffect])
      | simp_all [cancel_shape_prop, noEffect]

set_option maxHeartbeats 2000000 in
lemma reset_shape (env : Env) (accounts : List AccountInfo) (pid : Nat) :
    reset_shape_prop (process_reset_timelock env accounts pid) := by
  unfold process_reset_timelock
  (repeat' split) <;>
    first
      | (rename_i heq
         rcases escrow_unpack_error _ _ heq with rfl | rfl <;>
           simp_all [reset_shape_prop, noEffect])
      | simp_all [reset_shape_prop, noEffect]

/-- Caller-supplied accounts for the C1 counterexample: the nine-role
Exchange list with the last (pda) account missing. -/
def c1ExAccounts : List AccountInfo := c6Accounts.take 8

/-- C1 (counterexample): an Exchange invocation whose caller supplied
only the first eight accounts, with every check up to the first token
transfer passing, issues that transfer to the initializer and only then
fails on the missing ninth (pda) account — so the presence of every
required account is NOT checked before the first externally-visible
token-ledger call. -/
theorem c1_missing_account_checked_after_first_call :
    (process_exchange c6Env c1ExAccounts 500 9).err =
      some .NotEnoughAccountKeys ∧
    (process_exchange c6Env c1ExAccounts 500 9).calls =
      [.transfer 2 6 1 499] := by decide

set_option maxHeartbeats 1000000 in
/-- C1 (amended): for InitEscrow, ResetTimeLock and Cancel every
precondition-style failure (any error other than a ledger-call failure
and the effect-phase sweep overflow) leaves an empty ledger-call trace,
so all such checks precede the first token-ledger call; for Exchange
the same holds except that a missing ninth (pda) account is detected
only after the first transfer call, bounding the trace at one call; and
in all four handlers a token-ledger call failure is immediately fatal —
no further call is issued and the invocation ends in the ledger-failure
error. -/
theorem c1_checks_precede_calls_amended (env : Env)
    (accounts : List AccountInfo) (amt program_id : Nat) :
    (checks_first (process_init_escrow env accounts amt program_id) ∧
     checks_first (process_reset_timelock env accounts program_id) ∧
     checks_first (process_cancel env accounts program_id) ∧
     (∀ e, (process_exchange env accounts amt program_id).err = some e →
       e ≠ .LedgerCallFailed → e ≠ .AmountOverflow →
       ((process_exchange env accounts amt program_id).calls = [] ∨
         (e = .NotEnoughAccountKeys ∧
           (process_exchange env accounts amt program_id).calls.length = 1)))) ∧
    (ledger_failure_fatal env (process_init_escrow env accounts amt program_id) ∧
     ledger_failure_fatal env (process_reset_timelock env accounts program_id) ∧
     ledger_failure_fatal env (process_cancel env accounts program_id) ∧
     ledger_failure_fatal env (process_exchange env accounts amt program_id)) := by
  have hi := init_shape env accounts amt program_id
  have hr := reset_shape env accounts program_id
  have hcn := cancel_shape env accounts program_id
  have hx := exchange_shape env accounts amt program_id
  unfold init_shape_prop at hi
  unfold reset_shape_prop at hr
  unfold cancel_shape_prop at hcn
  unfold exchange_shape_prop at hx
  refine ⟨⟨?_, ?_, ?_, ?_⟩, ?_, ?_, ?_, ?_⟩
  · unfold checks_first
    intro e' he' hn1 hn2
    rcases hi with ⟨e, ho, hne1, hne2⟩ | ⟨w, ho⟩ | ⟨c, w, ho, _⟩ | ⟨c, w, ho, _⟩ <;>
      rw [ho] at he' ⊢ <;> simp_all [noEffect]
  · unfold checks_first
    intro e' he' hn1 hn2
    rcases hr with ⟨e, ho, hne1, hne2⟩ | ⟨w, ho⟩ <;>
      rw [ho] at he' ⊢ <;> simp_all [noEffect]
  · unfold checks_first
    intro e' he' hn1 hn2
    rcases hcn with ⟨e, ho, hne1, hne2⟩ | ⟨c, ho, _⟩ | ⟨c1, c2, ho, _, _⟩ |
      ⟨c1, c2, ho, _, _⟩ | ⟨c1, c2, ho, _, _⟩ <;>
      rw [ho] at he' ⊢ <;> simp_all [noEffect]
  · intro e' he' hn1 hn2
    rcases hx with ⟨e, ho, hne1, hne2⟩ | ⟨c, ho, _⟩ | ⟨c, ho, _⟩ |
      ⟨c1, c2, ho, _, _⟩ | ⟨c1, c2, c3, ho, _, _, _⟩ |
      ⟨c1, c2, c3, ho, _, _, _⟩ | ⟨c1, c2, c3, ho, _, _, _⟩ <;>
      rw [ho] at he' ⊢ <;> simp_all [noEffect]
  · rcases hi with ⟨e, ho, hne1, hne2⟩ | ⟨w, ho⟩ | ⟨c, w, ho, _⟩ | ⟨c, w, ho, _⟩ <;>
      rw [ho] <;> simp_all [ledger_failure_fatal, noEffect]
  · rcases hr with ⟨e, ho, hne1, hne2⟩ | ⟨w, ho⟩ <;>
      rw [ho] <;> simp_all [ledger_failure_fatal, noEffect]
  · rcases hcn with ⟨e, ho, hne1, hne2⟩ | ⟨c, ho, _⟩ | ⟨c1, c2, ho, _, _⟩ |
      ⟨c1, c2, ho, _, _⟩ | ⟨c1, c2, ho, _, _⟩ <;>
      rw [ho] <;> simp_all [ledger_failure_fatal, noEffect]
  · rcases hx with ⟨e, ho, hne1, hne2⟩ | ⟨c, ho, _⟩ | ⟨c, ho, _⟩ |
      ⟨c1, c2, ho, _, _⟩ | ⟨c1, c2, c3, ho, _, _, _⟩ |
      ⟨c1, c2, c3, ho, _, _, _⟩ | ⟨c1, c2, c3, ho, _, _, _⟩ <;>
      rw [ho] <;> simp_all [ledger_failure_fatal, noEffect]

/-- Witness for C1 (amended): an InitEscrow invocation with an empty
account list fails on a precondition and issues no ledger call. -/
theorem c1_checks_precede_calls_amended_witness :
    (process_init_escrow c6Env [] 500 9).calls = [] :=
  (c1_checks_precede_calls_amended c6Env [] 500 9).1.1 .NotEnoughAccountKeys
    rfl (by decide) (by decide)

/-- Witness for C9: tag 9 is outside 0..3 and decoding fails with
InvalidInstruction. -/
theorem c9_decode_error_characterisation_witness :
    EscrowInstruction.unpack [9] = .error .InvalidInstruction :=
  (c9_decode_error_characterisation [9]).2.mpr
    (Or.inr ⟨9, [], rfl, Or.inl (by decide)⟩)
